import Mathlib

/-
Verification development for the OmniDiag diagnostic assistant
(src/types.ts, src/services/geminiService.ts, src/App.tsx).

The TypeScript source is shallowly embedded: React state is modelled as an
explicit record `AppState`, each event handler as a pure transition function
on that record, and the asynchronous upstream calls as explicit outcome
parameters (the handler's behaviour is a function of the outcome the awaited
call produced).  `JSON.parse` is modelled by an executable fuel-based JSON
parser `jsonParse`.
-/

namespace OmniDiag

/-! ## Data model (src/types.ts) -/

/-- Severity enumeration of `RiskAssessment.severity` (types.ts line 2). -/
inductive Severity
| Low
| Medium
| High
| Critical
deriving DecidableEq, Repr

/-- Priority enumeration of `RecommendedFix.priority` (types.ts line 16). -/
inductive Priority
| Recommended
| Optional
| Urgent
deriving DecidableEq, Repr

/-- Embeds interface `RiskAssessment` (types.ts lines 1-6). -/
structure RiskAssessment where
  severity : Severity
  summary : String
  potentialConsequences : List String
  mitigationSteps : List String
deriving DecidableEq, Repr

/-- Embeds interface `TroubleshootingStep` (types.ts lines 8-12). -/
structure TroubleshootingStep where
  step : Nat
  action : String
  details : String
deriving DecidableEq, Repr

/-- Embeds interface `RecommendedFix` (types.ts lines 14-18). -/
structure RecommendedFix where
  fix : String
  priority : Priority
  details : String
deriving DecidableEq, Repr

/-- Embeds the inline `toolsAndParts` object type (types.ts lines 27-30). -/
structure ToolsAndParts where
  tools : List String
  parts : List String
deriving DecidableEq, Repr

/-- Embeds interface `DiagnosticReport` (types.ts lines 20-31). -/
structure DiagnosticReport where
  faultSummary : String
  possibleCauses : List String
  riskAssessment : RiskAssessment
  troubleshootingSteps : List TroubleshootingStep
  recommendedFixes : List RecommendedFix
  simplifiedExplanation : String
  toolsAndParts : ToolsAndParts
deriving DecidableEq, Repr

/-- Embeds the inline `userInput` object type of `HistoryEntry`
(types.ts lines 37-41): `image` records only presence, `audio` the
captured transcript. -/
structure UserInput where
  text : String
  image : Bool
  audio : String
deriving DecidableEq, Repr

/-- Embeds interface `HistoryEntry` (types.ts lines 33-42); the `Date`
timestamp is modelled as the epoch-milliseconds number `Date.now()`
produces. -/
structure HistoryEntry where
  id : String
  timestamp : Nat
  report : DiagnosticReport
  userInput : UserInput
deriving DecidableEq, Repr

/-! ## JSON values and a model of `JSON.parse`

`runDiagnostics` (geminiService.ts line 159) parses the upstream response
text with `JSON.parse`.  We model JSON values as an inductive type; number
tokens are kept as their source lexeme (the decode stage of the program
never inspects numeric values, so the floating-point interpretation is
irrelevant to every claim). -/

/-- A JSON value as produced by `JSON.parse`. -/
inductive Json
| null
| bool (b : Bool)
| num (lexeme : String)
| str (s : String)
| arr (elements : List Json)
| obj (members : List (String × Json))

/-- JSON insignificant whitespace: space, tab, line feed, carriage return. -/
def skipWs : List Char → List Char
| [] => []
| c :: cs => if c = ' ' ∨ c = '\t' ∨ c = '\n' ∨ c = '\r' then skipWs cs else c :: cs

/-- Value of a hexadecimal digit, if any. -/
def hexVal (c : Char) : Option Nat :=
  if '0' ≤ c ∧ c ≤ '9' then some (c.toNat - 48)
  else if 'a' ≤ c ∧ c ≤ 'f' then some (c.toNat - 87)
  else if 'A' ≤ c ∧ c ≤ 'F' then some (c.toNat - 55)
  else none

/-- Single-character JSON string escapes. -/
def escapeChar (c : Char) : Option Char :=
  if c = '"' then some '"'
  else if c = '\\' then some '\\'
  else if c = '/' then some '/'
  else if c = 'b' then some (Char.ofNat 8)
  else if c = 'f' then some (Char.ofNat 12)
  else if c = 'n' then some '\n'
  else if c = 'r' then some '\r'
  else if c = 't' then some '\t'
  else none

/-- Parses the body of a JSON string after the opening quote, returning the
decoded characters and the input after the closing quote. -/
def parseStringBody (fuel : Nat) (input : List Char) : Option (List Char × List Char) :=
  match fuel, input with
  | 0, _ => none
  | _, [] => none
  | fuel + 1, c :: cs =>
    if c = '"' then some ([], cs)
    else if c = '\\' then
      match cs with
      | [] => none
      | e :: cs2 =>
        if e = 'u' then
          match cs2 with
          | a :: b :: d :: f :: cs3 =>
            match hexVal a, hexVal b, hexVal d, hexVal f with
            | some ha, some hb, some hd, some hf =>
              match parseStringBody fuel cs3 with
              | some (out, rest) =>
                some (Char.ofNat (((ha * 16 + hb) * 16 + hd) * 16 + hf) :: out, rest)
              | none => none
            | _, _, _, _ => none
          | _ => none
        else
          match escapeChar e with
          | some ch =>
            match parseStringBody fuel cs2 with
            | some (out, rest) => some (ch :: out, rest)
            | none => none
          | none => none
    else if c.toNat < 32 then none
    else
      match parseStringBody fuel cs with
      | some (out, rest) => some (c :: out, rest)
      | none => none

/-- Longest leading run of decimal digits. -/
def takeDigits : List Char → List Char × List Char
| [] => ([], [])
| c :: cs =>
  if c.isDigit then
    let (ds, rest) := takeDigits cs
    (c :: ds, rest)
  else ([], c :: cs)

/-- JSON integer part: `0`, or a nonzero digit followed by digits. -/
def parseIntPart : List Char → Option (List Char × List Char)
| [] => none
| c :: cs =>
  if c = '0' then some ([c], cs)
  else if c.isDigit then
    let (ds, rest) := takeDigits cs
    some (c :: ds, rest)
  else none

/-- Optional JSON fraction part. -/
def parseFrac : List Char → Option (List Char × List Char)
| '.' :: cs =>
  let (ds, rest) := takeDigits cs
  if ds.isEmpty then none else some ('.' :: ds, rest)
| cs => some ([], cs)

/-- Optional JSON exponent part. -/
def parseExp : List Char → Option (List Char × List Char)
| [] => some ([], [])
| c :: cs =>
  if c = 'e' ∨ c = 'E' then
    let (sgn, cs1) :=
      match cs with
      | s :: r => if s = '+' ∨ s = '-' then ([s], r) else (([] : List Char), cs)
      | [] => ([], cs)
    let (ds, rest) := takeDigits cs1
    if ds.isEmpty then none else some (c :: (sgn ++ ds), rest)
  else some ([], c :: cs)

/-- JSON number token; returns the lexeme and the remaining input. -/
def parseNumber (cs : List Char) : Option (List Char × List Char) :=
  let (sgn, cs1) :=
    match cs with
    | c :: r => if c = '-' then ([c], r) else (([] : List Char), cs)
    | [] => ([], cs)
  match parseIntPart cs1 with
  | none => none
  | some (ip, cs2) =>
    match parseFrac cs2 with
    | none => none
    | some (fp, cs3) =>
      match parseExp cs3 with
      | none => none
      | some (ep, rest) => some (sgn ++ ip ++ fp ++ ep, rest)

/-- Strips an expected literal from the input, if it is there. -/
def stripLiteral (lit : List Char) (cs : List Char) : Option (List Char) :=
  match lit, cs with
  | [], rest => some rest
  | l :: ls, c :: rest => if c = l then stripLiteral ls rest else none
  | _ :: _, [] => none

mutual

/-- Parses one JSON value; leading whitespace allowed. -/
def parseValue (fuel : Nat) (cs : List Char) : Option (Json × List Char) :=
  match fuel with
  | 0 => none
  | fuel + 1 =>
    match skipWs cs with
    | [] => none
    | c :: rest =>
      if c = Char.ofNat 123 then parseObjectBody fuel rest
      else if c = '[' then parseArrayBody fuel rest
      else if c = '"' then
        match parseStringBody (fuel + 1) rest with
        | some (out, r) => some (.str (String.mk out), r)
        | none => none
      else
        match stripLiteral ['t', 'r', 'u', 'e'] (c :: rest) with
        | some r => some (.bool true, r)
        | none =>
          match stripLiteral ['f', 'a', 'l', 's', 'e'] (c :: rest) with
          | some r => some (.bool false, r)
          | none =>
            match stripLiteral ['n', 'u', 'l', 'l'] (c :: rest) with
            | some r => some (.null, r)
            | none =>
              match parseNumber (c :: rest) with
              | some (lex, r) => some (.num (String.mk lex), r)
              | none => none

/-- Parses an object after its opening brace. -/
def parseObjectBody (fuel : Nat) (cs : List Char) : Option (Json × List Char) :=
  match fuel with
  | 0 => none
  | fuel + 1 =>
    match skipWs cs with
    | [] => none
    | c :: rest =>
      if c = Char.ofNat 125 then some (.obj [], rest)
      else
        match parseMembers fuel (c :: rest) with
        | some (kvs, r) => some (.obj kvs, r)
        | none => none

/-- Parses the members of a nonempty object, up to the closing brace. -/
def parseMembers (fuel : Nat) (cs : List Char) : Option (List (String × Json) × List Char) :=
  match fuel with
  | 0 => none
  | fuel + 1 =>
    match skipWs cs with
    | [] => none
    | c :: rest =>
      if c = '"' then
        match parseStringBody (fuel + 1) rest with
        | some (key, cs2) =>
          match skipWs cs2 with
          | ':' :: cs3 =>
            match parseValue fuel cs3 with
            | some (v, cs4) =>
              match skipWs cs4 with
              | ',' :: cs5 =>
                match parseMembers fuel cs5 with
                | some (kvs, r) => some ((String.mk key, v) :: kvs, r)
                | none => none
              | c2 :: cs5 =>
                if c2 = Char.ofNat 125 then some ([(String.mk key, v)], cs5) else none
              | [] => none
            | none => none
          | _ => none
        | none => none
      else none

/-- Parses an array after its opening bracket. -/
def parseArrayBody (fuel : Nat) (cs : List Char) : Option (Json × List Char) :=
  match fuel with
  | 0 => none
  | fuel + 1 =>
    match skipWs cs with
    | [] => none
    | c :: rest =>
      if c = ']' then some (.arr [], rest)
      else
        match parseElements fuel (c :: rest) with
        | some (xs, r) => some (.arr xs, r)
        | none => none

/-- Parses the elements of a nonempty array, up to the closing bracket. -/
def parseElements (fuel : Nat) (cs : List Char) : Option (List Json × List Char) :=
  match fuel with
  | 0 => none
  | fuel + 1 =>
    match parseValue fuel cs with
    | some (v, cs2) =>
      match skipWs cs2 with
      | ',' :: cs3 =>
        match parseElements fuel cs3 with
        | some (xs, r) => some (v :: xs, r)
        | none => none
      | ']' :: cs3 => some ([v], cs3)
      | _ => none
    | none => none

end

/-- Models `JSON.parse`: parses the whole string as a single JSON value,
rejecting trailing content.  The fuel is generous: every recursive call
consumes input within a bounded number of steps. -/
def jsonParse (s : String) : Option Json :=
  match parseValue (s.length * 4 + 8) s.data with
  | some (j, rest) => if (skipWs rest).isEmpty then some j else none
  | none => none

/-- Drops leading whitespace characters. -/
def dropLeadingWs : List Char → List Char
| [] => []
| c :: cs => if c.isWhitespace then dropLeadingWs cs else c :: cs

/-- Models `String.prototype.trim`: removes leading and trailing
whitespace. -/
def jsTrim (s : String) : String :=
  String.mk (((dropLeadingWs s.data).reverse |> dropLeadingWs).reverse)

/-! ## The report schema's required-field lists (geminiService.ts 11-110)

The `reportSchema` object declares `required` member lists; they are sent to
the upstream API as `responseSchema`.  `meetsSchemaRequired` checks a parsed
JSON value against exactly those `required` lists (it deliberately checks
nothing else, mirroring what the schema's `required` clauses demand). -/

/-- Member of a JSON object by key (first occurrence). -/
def jsonLookup (j : Json) (k : String) : Option Json :=
  match j with
  | .obj kvs => List.lookup k kvs
  | _ => none

/-- Does a JSON object have a member with the given key? -/
def jsonHas (j : Json) (k : String) : Bool := (jsonLookup j k).isSome

/-- Required member names of `riskAssessment` (geminiService.ts line 47). -/
def riskAssessmentRequired : List String :=
  ["severity", "summary", "potentialConsequences", "mitigationSteps"]

/-- Required member names of a troubleshooting step (line 59). -/
def troubleshootingStepRequired : List String := ["step", "action", "details"]

/-- Required member names of a recommended fix (line 76). -/
def recommendedFixRequired : List String := ["fix", "priority", "details"]

/-- Required member names of `toolsAndParts` (line 98). -/
def toolsAndPartsRequired : List String := ["tools", "parts"]

/-- Top-level required member names of the report (lines 101-109). -/
def reportRequired : List String :=
  ["faultSummary", "possibleCauses", "riskAssessment", "troubleshootingSteps",
   "recommendedFixes", "simplifiedExplanation", "toolsAndParts"]

/-- Is the value an array each of whose items has all the given members? -/
def allItemsHave (j : Json) (ks : List String) : Bool :=
  match j with
  | .arr xs => xs.all fun x => ks.all (jsonHas x)
  | _ => false

/-- Does a parsed response satisfy every `required` clause of
`reportSchema`? -/
def meetsSchemaRequired (j : Json) : Bool :=
  reportRequired.all (jsonHas j) &&
  (match jsonLookup j "riskAssessment" with
   | some r => riskAssessmentRequired.all (jsonHas r)
   | none => false) &&
  (match jsonLookup j "troubleshootingSteps" with
   | some t => allItemsHave t troubleshootingStepRequired
   | none => false) &&
  (match jsonLookup j "recommendedFixes" with
   | some t => allItemsHave t recommendedFixRequired
   | none => false) &&
  (match jsonLookup j "toolsAndParts" with
   | some t => toolsAndPartsRequired.all (jsonHas t)
   | none => false)

/-! ## runDiagnostics (geminiService.ts lines 112-168)

The upstream call is modelled by its outcome: `Except.error msg` when
`ai.models.generateContent` rejected with an `Error` carrying `msg`, and
`Except.ok text` when it resolved with response text `text`.  The decode
stage trims the text, applies `JSON.parse`, and returns the parsed value
unchanged — the `as DiagnosticReport` cast on line 160 is a compile-time
assertion with no runtime check, so the runtime result is exactly the
parsed JSON value. -/

/-- Message prefix wrapped around caught errors (geminiService.ts 164). -/
def geminiErrorPrefix : String := "Failed to get diagnostic report from AI: "

/-- Stand-in for the engine-specific `SyntaxError` message that
`JSON.parse` throws on invalid input; the program only forwards it. -/
def jsonSyntaxErrorMessage : String := "Unexpected token in JSON"

/-- Embeds `runDiagnostics`' handling of the upstream response: a rejected
call's message, or a parse failure's message, is wrapped with
`geminiErrorPrefix` and rethrown; a successfully parsed value is returned
as the report without further validation. -/
def runDiagnostics (upstream : Except String String) : Except String Json :=
  match upstream with
  | .error msg => .error (geminiErrorPrefix ++ msg)
  | .ok text =>
    match jsonParse (jsTrim text) with
    | none => .error (geminiErrorPrefix ++ jsonSyntaxErrorMessage)
    | some j => .ok j

/-! ## Session state (src/App.tsx)

React's `useState` cells are gathered into one record; each event handler
becomes a pure transition function on that record.  Side-effecting
collaborators (the upstream diagnostic call, the chat stream, the speech
recognizer, `Date.now`, `window.confirm`, `process.env.API_KEY`) enter the
transition functions as explicit parameters describing the outcome the
awaited operation produced. -/

/-- Role of a chat turn; the source uses the literals `user` and `model`
(App.tsx line 42). -/
inductive Role
| user
| model
deriving DecidableEq, Repr

/-- One entry of `chatHistory` (App.tsx line 42). -/
structure ChatTurn where
  role : Role
  text : String
deriving DecidableEq, Repr

/-- A chat session handle, modelled by its creation arguments
(`ai.chats.create`, App.tsx lines 207-212 and 244-249). -/
structure Chat where
  model : String
  systemInstruction : String
deriving DecidableEq, Repr

/-- The `useState` cells of `App` (App.tsx lines 28-48); `transcriptRef`
(line 33) is the ref cell holding finalized speech text, and
`alertThreshold = none` is the source's `'None'` ("Disabled") setting. -/
structure AppState where
  textInput : String
  imageFile : Option String
  imageBase64 : Option String
  isRecording : Bool
  audioTranscript : String
  transcriptRef : String
  isLoading : Bool
  error : Option String
  report : Option DiagnosticReport
  history : List HistoryEntry
  activeIndex : Option Nat
  chat : Option Chat
  chatHistory : List ChatTurn
  isChatLoading : Bool
  chatInput : String
  alertThreshold : Option Severity
  activeAlert : Option String
deriving DecidableEq, Repr

/-- The initial state of every `useState` cell (App.tsx lines 28-48). -/
def initialState : AppState :=
  { textInput := ""
    imageFile := none
    imageBase64 := none
    isRecording := false
    audioTranscript := ""
    transcriptRef := ""
    isLoading := false
    error := none
    report := none
    history := []
    activeIndex := none
    chat := none
    chatHistory := []
    isChatLoading := false
    chatInput := ""
    alertThreshold := none
    activeAlert := none }

/-- JavaScript falsiness of a string: only the empty string is falsy. -/
def strFalsy (s : String) : Bool := s == ""

/-- JavaScript falsiness of a nullable string. -/
def optStrFalsy : Option String → Bool
| none => true
| some s => s == ""

/-- Numeric rank of a severity; the values of `severityLevels`
(App.tsx lines 170-175) and of `severityConfig.level` (lines 20-25). -/
def severityLevel : Severity → Nat
| .Low => 1
| .Medium => 2
| .High => 3
| .Critical => 4

/-- Display name of a severity, as used in the UI strings. -/
def severityName : Severity → String
| .Low => "Low"
| .Medium => "Medium"
| .High => "High"
| .Critical => "Critical"

/-- The validation message of an empty submission (App.tsx line 152). -/
def validationMessage : String :=
  "Please provide a description, image, or voice note to start the diagnosis."

/-- The alert text raised when the threshold is met (App.tsx line 177). -/
def alertMessage (sev threshold : Severity) : String :=
  "Proactive Alert: The detected risk level is \"" ++ severityName sev ++
  "\", which meets or exceeds your threshold of \"" ++ severityName threshold ++ "\"."

/-- The alert evaluation of `handleSubmit` (App.tsx lines 169-179): no
threshold configured means no alert; otherwise the alert is set exactly
when the report's severity rank reaches the threshold rank. -/
def evaluateAlert (threshold : Option Severity) (sev : Severity) : Option String :=
  match threshold with
  | none => none
  | some t =>
    if severityLevel sev ≥ severityLevel t then some (alertMessage sev t) else none

/-- The system instruction of the chat session opened for a fresh report
(App.tsx lines 197-205, with the template interpolations spelled out). -/
def newReportChatInstruction (r : DiagnosticReport) : String :=
  "You are OmniDiag, an expert AI diagnostic assistant. You've provided the user with a diagnostic report. Now, you must answer their follow-up questions. Maintain the persona of a helpful, expert assistant." ++
  "\n\nHERE IS THE CONTEXT of the report you generated:\n---\nFault Summary: " ++
  r.faultSummary ++ "\nPossible Causes: " ++ String.intercalate ", " r.possibleCauses ++
  "\nRisk: " ++ severityName r.riskAssessment.severity ++ " - " ++ r.riskAssessment.summary ++
  "\n---\nBase all your answers on this context and the user's follow-up questions."

/-- The system instruction of the chat session opened when a history entry
is selected (App.tsx lines 233-242). -/
def selectHistoryChatInstruction (entry : HistoryEntry) : String :=
  "You are OmniDiag, an expert AI diagnostic assistant. You've provided the user with a diagnostic report based on their initial submission. Now, you must answer their follow-up questions." ++
  "\n\nCONTEXT of the report you generated:\n---\nFault Summary: " ++
  entry.report.faultSummary ++ "\nPossible Causes: " ++
  String.intercalate ", " entry.report.possibleCauses ++
  "\nRisk: " ++ severityName entry.report.riskAssessment.severity ++ " - " ++
  entry.report.riskAssessment.summary ++
  "\n---\nThe user's original submission included: " ++
  (if strFalsy entry.userInput.text then "" else "A text description.") ++ " " ++
  (if entry.userInput.image then "An image." else "") ++ " " ++
  (if strFalsy entry.userInput.audio then "" else "A voice note.") ++
  "\nBase all your answers on this context and the user's follow-up questions."

/-- `clearImage` (App.tsx lines 131-137); resetting the file input element
has no counterpart in the state record. -/
def clearImage (s : AppState) : AppState :=
  { s with imageFile := none, imageBase64 := none }

/-- `clearInputs` (App.tsx lines 139-148): clears the text, image and
transcript buffers and stops an active recording. -/
def clearInputs (s : AppState) : AppState :=
  let s1 := clearImage { s with textInput := "" }
  let s2 := { s1 with audioTranscript := "", transcriptRef := "" }
  if s2.isRecording then { s2 with isRecording := false } else s2

/-- The history entry built on a successful diagnosis (App.tsx lines
181-190): the id is `Date.now().toString()`, the redacted input records
text as submitted, image presence, and the finalized transcript ref. -/
def newHistoryEntry (s : AppState) (now : Nat) (r : DiagnosticReport) : HistoryEntry :=
  { id := toString now
    timestamp := now
    report := r
    userInput :=
      { text := s.textInput
        image := !s.imageFile.isNone
        audio := s.transcriptRef } }

/-- Outcome of the awaited `runDiagnostics` call inside `handleSubmit`. -/
inductive SubmitOutcome
| success (r : DiagnosticReport)
| failure (msg : String)
deriving DecidableEq, Repr

/-- The stored error message: `err.message || 'An unexpected error
occurred.'` (App.tsx line 218). -/
def storedErrorMessage (msg : String) : String :=
  if strFalsy msg then "An unexpected error occurred." else msg

/-- Embeds `handleSubmit` (App.tsx lines 150-222).  `now` models
`Date.now()`, `apiKey` the presence of `process.env.API_KEY`, and
`outcome` the result of the awaited `runDiagnostics` call (only consulted
when the call is actually made). -/
def handleSubmit (s : AppState) (now : Nat) (apiKey : Bool)
    (outcome : SubmitOutcome) : AppState :=
  if strFalsy s.textInput && optStrFalsy s.imageBase64 && strFalsy s.audioTranscript then
    { s with error := some validationMessage }
  else
    let s1 := { s with isLoading := true, error := none, report := none,
                       activeIndex := none, chat := none, chatHistory := [],
                       activeAlert := none }
    match outcome with
    | .failure msg =>
      { s1 with error := some (storedErrorMessage msg), isLoading := false }
    | .success r =>
      let s2 := { s1 with report := some r }
      let s3 := { s2 with activeAlert := evaluateAlert s2.alertThreshold r.riskAssessment.severity }
      let entry := newHistoryEntry s now r
      let s4 := { s3 with history := entry :: s3.history, activeIndex := some 0 }
      let s5 :=
        if apiKey then
          { s4 with chat := some { model := "gemini-2.5-flash",
                                   systemInstruction := newReportChatInstruction r } }
        else s4
      let s6 := clearInputs s5
      { s6 with isLoading := false }

/-- Embeds `handleSelectHistory` (App.tsx lines 224-252).  The render
passes each history entry together with its index (line 632), and the
stored report is used directly — the function takes no upstream outcome
because no network call is made for the report. -/
def handleSelectHistory (s : AppState) (entry : HistoryEntry) (index : Nat)
    (apiKey : Bool) : AppState :=
  let s1 := { s with report := some entry.report, activeIndex := some index,
                     chatHistory := [], activeAlert := none }
  if apiKey then
    { s1 with chat := some { model := "gemini-2.5-flash",
                             systemInstruction := selectHistoryChatInstruction entry } }
  else s1

/-- Embeds `handleClearHistory` (App.tsx lines 254-262); `confirmed`
models the result of `window.confirm`.  Note that `activeAlert` is not
touched by the source. -/
def handleClearHistory (s : AppState) (confirmed : Bool) : AppState :=
  if confirmed then
    { s with history := [], report := none, activeIndex := none,
             chat := none, chatHistory := [] }
  else s

/-- The fixed apology appended on a chat failure (App.tsx line 288). -/
def apologyMessage : String := "Sorry, I encountered an error. Please try again."

/-- One streamed chunk applied to the trailing turn (App.tsx lines
280-284): the last turn's text is extended; the source would fault on an
empty list, which never occurs because an assistant turn is appended
before the stream is consumed. -/
def appendToLastTurn (hist : List ChatTurn) (chunk : String) : List ChatTurn :=
  match hist.getLast? with
  | none => hist
  | some last => hist.dropLast ++ [{ last with text := last.text ++ chunk }]

/-- All streamed chunks applied in arrival order (the `for await` loop,
App.tsx lines 278-285). -/
def applyChunks (hist : List ChatTurn) (chunks : List String) : List ChatTurn :=
  chunks.foldl appendToLastTurn hist

/-- Concatenation of the streamed chunks in arrival order. -/
def concatChunks : List String → String
| [] => ""
| c :: cs => c ++ concatChunks cs

/-- Outcome of the awaited chat call inside `handleSendChatMessage`:
either `sendMessageStream` itself rejects, or it yields a stream of
chunks which may end with a mid-stream failure. -/
inductive ChatOutcome
| initialFailure
| stream (chunks : List String) (midStreamFailure : Bool)
deriving DecidableEq, Repr

/-- Embeds `handleSendChatMessage` (App.tsx lines 264-291).  The guard
(line 265) makes the call a no-op on blank input, absent session, or an
in-flight reply.  Otherwise a user turn is appended and the loading flag
set; on a successful initial call the flag is cleared, an empty assistant
turn appended, and each chunk applied to the trailing turn; the catch
block appends a fresh apology turn and clears the flag. -/
def handleSendChatMessage (s : AppState) (outcome : ChatOutcome) : AppState :=
  if strFalsy (jsTrim s.chatInput) || s.chat.isNone || s.isChatLoading then s
  else
    let text := s.chatInput
    let s1 := { s with chatInput := "",
                       chatHistory := s.chatHistory ++ [ChatTurn.mk .user text],
                       isChatLoading := true }
    match outcome with
    | .initialFailure =>
      { s1 with chatHistory := s1.chatHistory ++ [ChatTurn.mk .model apologyMessage],
                isChatLoading := false }
    | .stream chunks midStreamFailure =>
      let s2 := { s1 with isChatLoading := false }
      let s3 := { s2 with chatHistory := s2.chatHistory ++ [ChatTurn.mk .model ""] }
      let s4 := { s3 with chatHistory := applyChunks s3.chatHistory chunks }
      if midStreamFailure then
        { s4 with chatHistory := s4.chatHistory ++ [ChatTurn.mk .model apologyMessage],
                  isChatLoading := false }
      else s4

/-! ## Speech capture (App.tsx lines 53-92 and 114-129) -/

/-- One recognition alternative's transcript with its finality flag, as
read from `event.results[i]` (App.tsx lines 59-64). -/
structure RecogResult where
  transcript : String
  isFinal : Bool
deriving DecidableEq, Repr

/-- A `SpeechRecognition` result event: the full result list and the index
the handler starts reading from. -/
structure RecogEvent where
  resultIndex : Nat
  results : List RecogResult
deriving DecidableEq, Repr

/-- Embeds `recognition.onresult` (App.tsx lines 56-68): the results from
`resultIndex` on are split into finalized and interim text, the ref is
assigned the finalized text of this event, and the displayed transcript
becomes finalized followed by interim text. -/
def onresult (s : AppState) (e : RecogEvent) : AppState :=
  let relevant := e.results.drop e.resultIndex
  let finalTranscript := concatChunks ((relevant.filter (·.isFinal)).map (·.transcript))
  let interimTranscript := concatChunks ((relevant.filter fun r => !r.isFinal).map (·.transcript))
  { s with transcriptRef := finalTranscript,
           audioTranscript := finalTranscript ++ interimTranscript }

/-- Events delivered by the recognition stream: a result event, or the
stream ending (at which `recognition.onend`, App.tsx lines 76-85, restarts
the recognizer when `isRecording` is still true without touching any
state cell; `restartFailed` models the catch branch that turns recording
off). -/
inductive RecogEventKind
| result (e : RecogEvent)
| streamEnd (restartFailed : Bool)
deriving DecidableEq, Repr

/-- One recognition event applied to the state. -/
def recogStep (s : AppState) (ev : RecogEventKind) : AppState :=
  match ev with
  | .result e => onresult s e
  | .streamEnd restartFailed =>
    if s.isRecording ∧ restartFailed then { s with isRecording := false } else s

/-- Embeds `handleRecordClick` (App.tsx lines 114-129): toggles recording;
stopping keeps only the finalized ref text as the transcript, starting
clears both. -/
def handleRecordClick (s : AppState) (speechAvailable : Bool) : AppState :=
  if !speechAvailable then
    { s with error := some "Sorry, your browser does not support Speech Recognition." }
  else if s.isRecording then
    { s with isRecording := false, audioTranscript := s.transcriptRef }
  else
    { s with transcriptRef := "", audioTranscript := "", isRecording := true }

/-! ## Sample values used by witnesses and counterexamples -/

/-- A concrete risk assessment. -/
def sampleRisk : RiskAssessment :=
  { severity := .Critical
    summary := "short circuit"
    potentialConsequences := ["fire"]
    mitigationSteps := ["isolate"] }

/-- A concrete report. -/
def sampleReport : DiagnosticReport :=
  { faultSummary := "compressor failure"
    possibleCauses := ["worn bearing"]
    riskAssessment := sampleRisk
    troubleshootingSteps := [{ step := 1, action := "inspect", details := "look" }]
    recommendedFixes := [{ fix := "replace", priority := .Urgent, details := "asap" }]
    simplifiedExplanation := "it broke"
    toolsAndParts := { tools := ["wrench"], parts := ["bearing"] } }

/-- A concrete history entry wrapping `sampleReport`. -/
def sampleEntry : HistoryEntry :=
  { id := "1"
    timestamp := 0
    report := sampleReport
    userInput := { text := "it rattles", image := false, audio := "" } }

/-! ## Helper lemmas -/

/-- Appending a chunk to the trailing turn of a history with a known last
element extends exactly that element's text. -/
theorem appendToLastTurn_concat (h : List ChatTurn) (t : ChatTurn) (c : String) :
    appendToLastTurn (h ++ [t]) c = h ++ [{ t with text := t.text ++ c }] := by
  simp [appendToLastTurn, List.getLast?_concat, List.dropLast_concat]

/-- Applying a whole chunk list to a history with a known last element
appends the concatenation of the chunks to that element's text. -/
theorem applyChunks_concat_last (l : List String) (h : List ChatTurn) (t : ChatTurn) :
    applyChunks (h ++ [t]) l = h ++ [{ t with text := t.text ++ concatChunks l }] := by
  induction l generalizing t with
  | nil => simp [applyChunks, concatChunks]
  | cons c cs ih =>
    have step : applyChunks (h ++ [t]) (c :: cs) =
        applyChunks (h ++ [{ t with text := t.text ++ c }]) cs := by
      simp [applyChunks, appendToLastTurn_concat]
    rw [step, ih]
    simp [concatChunks, String.append_assoc]

/-! ## Claim C1 (corrected) -/

/-- Claim C1, counterexample: the upstream response text consisting of the
empty JSON object parses as JSON, omits every required field of the report
schema (in particular `riskAssessment.severity`), and `runDiagnostics`
returns it as a report instead of failing with DiagnosticError. -/
theorem c1_missing_field_not_rejected :
    runDiagnostics (Except.ok "\x7b\x7d") = Except.ok (Json.obj []) ∧
    meetsSchemaRequired (Json.obj []) = false :=
  ⟨rfl, rfl⟩

/-- Claim C1, amended: an upstream-call error, or a response whose trimmed
text is not valid JSON, surfaces as a DiagnosticError whose message is
prefixed with the fixed wrapper text; a response that parses as JSON is
returned as the report unchanged, without any local required-field
validation. -/
theorem c1_parse_failure_surfaced (text : String) :
    (jsonParse (jsTrim text) = none →
      runDiagnostics (Except.ok text) =
        Except.error (geminiErrorPrefix ++ jsonSyntaxErrorMessage)) ∧
    (∀ j, jsonParse (jsTrim text) = some j →
      runDiagnostics (Except.ok text) = Except.ok j) ∧
    (∀ msg, runDiagnostics (Except.error msg) =
      Except.error (geminiErrorPrefix ++ msg)) := by
  refine ⟨fun h => ?_, fun j h => ?_, fun msg => rfl⟩ <;> simp [runDiagnostics, h]

/-- Claim C1, witness for the amended theorem: a concretely malformed
response text is rejected with the wrapped error. -/
theorem c1_parse_failure_surfaced_witness :
    runDiagnostics (Except.ok "not json") =
      Except.error (geminiErrorPrefix ++ jsonSyntaxErrorMessage) :=
  (c1_parse_failure_surfaced "not json").1 rfl

/-- The success branch of `handleSubmit`, written out field by field. -/
theorem handleSubmit_success_eq (s : AppState) (now : Nat) (apiKey : Bool)
    (r : DiagnosticReport)
    (hne : (strFalsy s.textInput && optStrFalsy s.imageBase64 &&
            strFalsy s.audioTranscript) = false) :
    handleSubmit s now apiKey (.success r) =
      { textInput := ""
        imageFile := none
        imageBase64 := none
        isRecording := false
        audioTranscript := ""
        transcriptRef := ""
        isLoading := false
        error := none
        report := some r
        history := newHistoryEntry s now r :: s.history
        activeIndex := some 0
        chat := if apiKey then
            some { model := "gemini-2.5-flash",
                   systemInstruction := newReportChatInstruction r }
          else none
        chatHistory := []
        isChatLoading := s.isChatLoading
        chatInput := s.chatInput
        alertThreshold := s.alertThreshold
        activeAlert := evaluateAlert s.alertThreshold r.riskAssessment.severity } := by
  unfold handleSubmit
  rw [hne]
  cases hk : apiKey <;> cases hr : s.isRecording <;>
    simp [clearInputs, clearImage, hr]

/-- The failure branch of `handleSubmit`, written out as a record update. -/
theorem handleSubmit_failure_eq (s : AppState) (now : Nat) (apiKey : Bool)
    (msg : String)
    (hne : (strFalsy s.textInput && optStrFalsy s.imageBase64 &&
            strFalsy s.audioTranscript) = false) :
    handleSubmit s now apiKey (.failure msg) =
      { s with isLoading := false, error := some (storedErrorMessage msg),
               report := none, activeIndex := none, chat := none,
               chatHistory := [], activeAlert := none } := by
  unfold handleSubmit
  rw [hne]
  simp

/-! ## Claim C2 (confirmed) -/

/-- Claim C2: after a successful submission, under the total order
Low < Medium < High < Critical, a configured threshold `t` raises the
alert exactly when the report severity's rank reaches `t`'s rank, the
raised message names both the severity and the threshold, and a disabled
threshold raises no alert.  The `Option`-valued `activeAlert` cell holds
at most one alert. -/
theorem c2_alert_threshold (s : AppState) (now : Nat) (apiKey : Bool)
    (r : DiagnosticReport)
    (hne : (strFalsy s.textInput && optStrFalsy s.imageBase64 &&
            strFalsy s.audioTranscript) = false) :
    (severityLevel .Low < severityLevel .Medium ∧
     severityLevel .Medium < severityLevel .High ∧
     severityLevel .High < severityLevel .Critical) ∧
    (∀ t, s.alertThreshold = some t →
      ((handleSubmit s now apiKey (.success r)).activeAlert =
          some (alertMessage r.riskAssessment.severity t) ↔
        severityLevel t ≤ severityLevel r.riskAssessment.severity)) ∧
    (s.alertThreshold = none →
      (handleSubmit s now apiKey (.success r)).activeAlert = none) ∧
    (∀ t, s.alertThreshold = some t →
      ∃ p q u, alertMessage r.riskAssessment.severity t =
        p ++ severityName r.riskAssessment.severity ++ q ++ severityName t ++ u) := by
  rw [handleSubmit_success_eq s now apiKey r hne]
  refine ⟨by decide, fun t ht => ?_, fun ht => by simp [ht, evaluateAlert], fun t ht => ?_⟩
  · simp only [ht, evaluateAlert]
    by_cases hc : severityLevel t ≤ severityLevel r.riskAssessment.severity <;>
      simp [ge_iff_le, hc]
  · exact ⟨"Proactive Alert: The detected risk level is \"",
      "\", which meets or exceeds your threshold of \"", "\".",
      by simp [alertMessage, String.append_assoc]⟩

/-- A concrete submission state with text present and threshold High. -/
def c2State : AppState :=
  { initialState with textInput := "sparks", alertThreshold := some .High }

/-- Claim C2, witness: threshold High with severity Critical raises the
alert naming both values. -/
theorem c2_alert_threshold_witness :
    (handleSubmit c2State 0 true (.success sampleReport)).activeAlert =
      some (alertMessage .Critical .High) :=
  ((c2_alert_threshold c2State 0 true sampleReport (by decide)).2.1 .High rfl).mpr
    (by decide)

/-! ## Claim C4 (confirmed) -/

/-- Claim C4: a successful submission prepends exactly one new history
entry at the head (all prior entries preserved in order), makes the active
report that entry's stored report, and clears the text, image and
transcript input buffers. -/
theorem c4_history_prepended (s : AppState) (now : Nat) (apiKey : Bool)
    (r : DiagnosticReport)
    (hne : (strFalsy s.textInput && optStrFalsy s.imageBase64 &&
            strFalsy s.audioTranscript) = false) :
    (handleSubmit s now apiKey (.success r)).history =
      newHistoryEntry s now r :: s.history ∧
    (handleSubmit s now apiKey (.success r)).report =
      some (newHistoryEntry s now r).report ∧
    (newHistoryEntry s now r).report = r ∧
    (handleSubmit s now apiKey (.success r)).textInput = "" ∧
    (handleSubmit s now apiKey (.success r)).imageFile = none ∧
    (handleSubmit s now apiKey (.success r)).imageBase64 = none ∧
    (handleSubmit s now apiKey (.success r)).audioTranscript = "" ∧
    (handleSubmit s now apiKey (.success r)).transcriptRef = "" := by
  rw [handleSubmit_success_eq s now apiKey r hne]
  simp [newHistoryEntry]

/-- A concrete submission state with only text present. -/
def c4State : AppState := { initialState with textInput := "leak" }

/-- Claim C4, witness: a concrete successful submission prepends the entry
and clears the text buffer. -/
theorem c4_history_prepended_witness :
    (handleSubmit c4State 5 true (.success sampleReport)).history =
      newHistoryEntry c4State 5 sampleReport :: c4State.history ∧
    (handleSubmit c4State 5 true (.success sampleReport)).textInput = "" :=
  ⟨(c4_history_prepended c4State 5 true sampleReport (by decide)).1,
   (c4_history_prepended c4State 5 true sampleReport (by decide)).2.2.2.1⟩

/-! ## Claim C8 (confirmed) -/

/-- Claim C8: when the diagnostic call fails, the error message is stored
(verbatim when nonempty) and the Error state entered (loading cleared),
the text, image and transcript buffers are preserved exactly, history is
unchanged, and no report is made active. -/
theorem c8_failure_preserves_input (s : AppState) (now : Nat) (apiKey : Bool)
    (msg : String)
    (hne : (strFalsy s.textInput && optStrFalsy s.imageBase64 &&
            strFalsy s.audioTranscript) = false) :
    handleSubmit s now apiKey (.failure msg) =
      { s with isLoading := false, error := some (storedErrorMessage msg),
               report := none, activeIndex := none, chat := none,
               chatHistory := [], activeAlert := none } ∧
    (msg ≠ "" → storedErrorMessage msg = msg) ∧
    (handleSubmit s now apiKey (.failure msg)).textInput = s.textInput ∧
    (handleSubmit s now apiKey (.failure msg)).imageFile = s.imageFile ∧
    (handleSubmit s now apiKey (.failure msg)).imageBase64 = s.imageBase64 ∧
    (handleSubmit s now apiKey (.failure msg)).audioTranscript = s.audioTranscript ∧
    (handleSubmit s now apiKey (.failure msg)).transcriptRef = s.transcriptRef ∧
    (handleSubmit s now apiKey (.failure msg)).history = s.history ∧
    (handleSubmit s now apiKey (.failure msg)).report = none := by
  rw [handleSubmit_failure_eq s now apiKey msg hne]
  refine ⟨rfl, fun h => ?_, rfl, rfl, rfl, rfl, rfl, rfl, rfl⟩
  simp [storedErrorMessage, strFalsy, h]

/-- Claim C8, witness: a concrete failing submission stores the message
and keeps the submitted text. -/
theorem c8_failure_preserves_input_witness :
    handleSubmit c4State 5 true (.failure "boom") =
      { c4State with isLoading := false, error := some (storedErrorMessage "boom"),
                     report := none, activeIndex := none, chat := none,
                     chatHistory := [], activeAlert := none } ∧
    storedErrorMessage "boom" = "boom" :=
  ⟨(c8_failure_preserves_input c4State 5 true "boom" (by decide)).1,
   (c8_failure_preserves_input c4State 5 true "boom" (by decide)).2.1 (by decide)⟩

/-! ## Claim C9 (confirmed) -/

/-- Claim C9: a submission with text, image and transcript all empty fails
with the validation message; the resulting state differs only in the error
cell, so history and all other persisted state are unchanged, and the
result does not depend on any upstream outcome (no upstream call is
consulted). -/
theorem c9_empty_submission_validation (s : AppState) (now : Nat) (apiKey : Bool)
    (outcome : SubmitOutcome)
    (h1 : s.textInput = "") (_h2 : s.imageFile = none) (h3 : s.imageBase64 = none)
    (h4 : s.audioTranscript = "") :
    handleSubmit s now apiKey outcome = { s with error := some validationMessage } := by
  unfold handleSubmit
  simp [strFalsy, optStrFalsy, h1, h3, h4]

/-- Claim C9, witness: the empty initial state is rejected with the
validation message regardless of the (never consulted) outcome. -/
theorem c9_empty_submission_validation_witness :
    handleSubmit initialState 0 true (.success sampleReport) =
      { initialState with error := some validationMessage } :=
  c9_empty_submission_validation initialState 0 true (.success sampleReport)
    rfl rfl rfl rfl

/-! ## Claim C3 (corrected) -/

/-- A concrete state with one history entry, an active report and a raised
alert. -/
def c3State : AppState :=
  { initialState with history := [sampleEntry], report := some sampleReport,
                      activeIndex := some 0, activeAlert := some "warning" }

/-- Claim C3, counterexample: clearing the history (with confirmation)
leaves the raised alert in place, contradicting the claim that the alert
is cleared. -/
theorem c3_alert_not_cleared :
    (handleClearHistory c3State true).activeAlert = some "warning" ∧
    some "warning" ≠ (none : Option String) :=
  ⟨rfl, by simp⟩

/-- Claim C3, amended: the confirmed clear-history operation empties the
history and clears the active report, active index, chat session and chat
turn log in one transition, but leaves the raised alert unchanged; on a
state where history is empty and no report, index, chat or chat turns are
set (as in any reachable empty-history state) it changes nothing, and an
unconfirmed call changes nothing. -/
theorem c3_clear_history (s : AppState) :
    (handleClearHistory s true).history = [] ∧
    (handleClearHistory s true).report = none ∧
    (handleClearHistory s true).activeIndex = none ∧
    (handleClearHistory s true).chat = none ∧
    (handleClearHistory s true).chatHistory = [] ∧
    (handleClearHistory s true).activeAlert = s.activeAlert ∧
    (s.history = [] → s.report = none → s.activeIndex = none → s.chat = none →
      s.chatHistory = [] → handleClearHistory s true = s) ∧
    handleClearHistory s false = s := by
  refine ⟨rfl, rfl, rfl, rfl, rfl, rfl, fun h1 h2 h3 h4 h5 => ?_, rfl⟩
  cases s
  simp_all [handleClearHistory]

/-- Claim C3, witness for the amended theorem: clearing an already-empty
state changes nothing. -/
theorem c3_clear_history_witness :
    handleClearHistory initialState true = initialState :=
  (c3_clear_history initialState).2.2.2.2.2.2.1 rfl rfl rfl rfl rfl

/-! ## Claim C5 (confirmed) -/

/-- Claim C5: with the send guard passing and the stream succeeding, the
chat reply fragments are applied in arrival order to the single trailing
assistant turn, whose final text is exactly their concatenation; all
earlier turns (the prior log and the new user turn) are preserved
unchanged, and the loading flag ends cleared. -/
theorem c5_stream_in_order (s : AppState) (chunks : List String)
    (h : (strFalsy (jsTrim s.chatInput) || s.chat.isNone || s.isChatLoading) = false) :
    (handleSendChatMessage s (.stream chunks false)).chatHistory =
      s.chatHistory ++
        [ChatTurn.mk .user s.chatInput, ChatTurn.mk .model (concatChunks chunks)] ∧
    (handleSendChatMessage s (.stream chunks false)).isChatLoading = false := by
  unfold handleSendChatMessage
  rw [h]
  have happ : applyChunks
      (s.chatHistory ++ [ChatTurn.mk .user s.chatInput, ChatTurn.mk .model ""]) chunks =
      s.chatHistory ++
        [ChatTurn.mk .user s.chatInput, ChatTurn.mk .model (concatChunks chunks)] := by
    have hbase := applyChunks_concat_last chunks
      (s.chatHistory ++ [ChatTurn.mk .user s.chatInput]) (ChatTurn.mk .model "")
    simpa [String.empty_append] using hbase
  simp only [Bool.false_eq_true, if_false]
  simp [happ]

/-- A concrete state with an open chat session and a pending question. -/
def c5State : AppState :=
  { initialState with
      chat := some { model := "gemini-2.5-flash", systemInstruction := "ctx" },
      chatInput := "why?" }

/-- Claim C5, witness: the fragments of the worked example concatenate to
exactly the expected reply. -/
theorem c5_stream_in_order_witness :
    (handleSendChatMessage c5State
        (.stream ["The ", "issue ", "is resolved."] false)).chatHistory =
      [ChatTurn.mk .user "why?", ChatTurn.mk .model "The issue is resolved."] :=
  ((c5_stream_in_order c5State ["The ", "issue ", "is resolved."] rfl).1).trans rfl

/-! ## Claim C6 (corrected) -/

/-- A concrete state with an open chat session and a pending question. -/
def c6State : AppState :=
  { initialState with
      chat := some { model := "gemini-2.5-flash", systemInstruction := "ctx" },
      chatInput := "q" }

/-- Claim C6, counterexample: when the stream fails after a partial
fragment, the partial trailing assistant turn is left in place and a new
apology turn is appended after it — the trailing turn is not replaced by
the apology. -/
theorem c6_partial_turn_left_in_place :
    (handleSendChatMessage c6State (.stream ["partial "] true)).chatHistory =
      [ChatTurn.mk .user "q", ChatTurn.mk .model "partial ",
       ChatTurn.mk .model apologyMessage] ∧
    (handleSendChatMessage c6State (.stream ["partial "] true)).chatHistory ≠
      [ChatTurn.mk .user "q", ChatTurn.mk .model apologyMessage] :=
  ⟨rfl, by decide⟩

/-- Claim C6, amended: on a reply-stream failure the reply is finalized by
appending a new assistant turn holding the fixed apology message — after a
failed initial call it directly follows the user turn, and after a
mid-stream failure it follows the partial assistant turn, which is left in
place — and the chat-loading flag is cleared. -/
theorem c6_apology_turn (s : AppState) (chunks : List String)
    (h : (strFalsy (jsTrim s.chatInput) || s.chat.isNone || s.isChatLoading) = false) :
    ((handleSendChatMessage s .initialFailure).chatHistory =
        s.chatHistory ++
          [ChatTurn.mk .user s.chatInput, ChatTurn.mk .model apologyMessage] ∧
      (handleSendChatMessage s .initialFailure).isChatLoading = false) ∧
    ((handleSendChatMessage s (.stream chunks true)).chatHistory =
        s.chatHistory ++
          [ChatTurn.mk .user s.chatInput, ChatTurn.mk .model (concatChunks chunks),
           ChatTurn.mk .model apologyMessage] ∧
      (handleSendChatMessage s (.stream chunks true)).isChatLoading = false) := by
  unfold handleSendChatMessage
  rw [h]
  have happ : applyChunks
      (s.chatHistory ++ [ChatTurn.mk .user s.chatInput, ChatTurn.mk .model ""]) chunks =
      s.chatHistory ++
        [ChatTurn.mk .user s.chatInput, ChatTurn.mk .model (concatChunks chunks)] := by
    have hbase := applyChunks_concat_last chunks
      (s.chatHistory ++ [ChatTurn.mk .user s.chatInput]) (ChatTurn.mk .model "")
    simpa [String.empty_append] using hbase
  simp only [Bool.false_eq_true, if_false]
  simp [happ]

/-- Claim C6, witness for the amended theorem: a concrete mid-stream
failure yields the partial turn followed by the apology turn. -/
theorem c6_apology_turn_witness :
    (handleSendChatMessage c6State (.stream ["partial "] true)).chatHistory =
      c6State.chatHistory ++
        [ChatTurn.mk .user "q", ChatTurn.mk .model "partial ",
         ChatTurn.mk .model apologyMessage] :=
  ((c6_apology_turn c6State ["partial "] rfl).2.1).trans rfl

/-! ## Claim C7 (code_bug) -/

/-- Claim C7, code evaluated at the failing input: a recording session
finalizes "hello ", the recognition stream ends while recording is still
on (so `onend` restarts it), and the restarted stream finalizes "world".
The `onresult` handler assigns (rather than accumulates) the finalized
text, so the previously finalized "hello " is discarded from both the ref
and the displayed transcript: the final transcript is "world", not the
preserved "hello world" the claim requires.  Stopping at that point keeps
only "world" as well. -/
theorem c7_restart_discards_finalized_text :
    (handleRecordClick initialState true).isRecording = true ∧
    (recogStep (handleRecordClick initialState true)
        (.result { resultIndex := 0,
                   results := [{ transcript := "hello ", isFinal := true }] })).transcriptRef
      = "hello " ∧
    (recogStep (recogStep (handleRecordClick initialState true)
        (.result { resultIndex := 0,
                   results := [{ transcript := "hello ", isFinal := true }] }))
        (.streamEnd false)).isRecording = true ∧
    (recogStep (recogStep (recogStep (handleRecordClick initialState true)
        (.result { resultIndex := 0,
                   results := [{ transcript := "hello ", isFinal := true }] }))
        (.streamEnd false))
        (.result { resultIndex := 0,
                   results := [{ transcript := "world", isFinal := true }] })).transcriptRef
      = "world" ∧
    (recogStep (recogStep (recogStep (handleRecordClick initialState true)
        (.result { resultIndex := 0,
                   results := [{ transcript := "hello ", isFinal := true }] }))
        (.streamEnd false))
        (.result { resultIndex := 0,
                   results := [{ transcript := "world", isFinal := true }] })).audioTranscript
      = "world" ∧
    "world" ≠ "hello world" :=
  ⟨rfl, rfl, rfl, rfl, rfl, by decide⟩

/-! ## Claim C10 (confirmed) -/

/-- Claim C10: selecting the history entry at index `i` (the render passes
`history[i]` together with `i`, App.tsx line 632) makes the active report
equal to that entry's stored report regardless of the prior active report,
resets the chat turn log, clears the raised alert, records the active
index, leaves history untouched, and opens a fresh chat session whose
instruction is built from that entry's report context (it mentions the
entry's fault summary); the stored report is used directly, with no
upstream outcome involved. -/
theorem c10_select_history (s : AppState) (i : Nat) (h : i < s.history.length) :
    (handleSelectHistory s (s.history.get ⟨i, h⟩) i true).report =
      some (s.history.get ⟨i, h⟩).report ∧
    (handleSelectHistory s (s.history.get ⟨i, h⟩) i true).chatHistory = [] ∧
    (handleSelectHistory s (s.history.get ⟨i, h⟩) i true).activeAlert = none ∧
    (handleSelectHistory s (s.history.get ⟨i, h⟩) i true).activeIndex = some i ∧
    (handleSelectHistory s (s.history.get ⟨i, h⟩) i true).history = s.history ∧
    (handleSelectHistory s (s.history.get ⟨i, h⟩) i true).chat =
      some { model := "gemini-2.5-flash",
             systemInstruction := selectHistoryChatInstruction (s.history.get ⟨i, h⟩) } ∧
    (∃ p q, selectHistoryChatInstruction (s.history.get ⟨i, h⟩) =
      p ++ (s.history.get ⟨i, h⟩).report.faultSummary ++ q) := by
  refine ⟨rfl, rfl, rfl, rfl, rfl, rfl, ?_⟩
  refine ⟨"You are OmniDiag, an expert AI diagnostic assistant. You've provided the user with a diagnostic report based on their initial submission. Now, you must answer their follow-up questions." ++
    "\n\nCONTEXT of the report you generated:\n---\nFault Summary: ", ?_, ?_⟩
  · exact "\nPossible Causes: " ++
      String.intercalate ", " (s.history.get ⟨i, h⟩).report.possibleCauses ++
      "\nRisk: " ++ severityName (s.history.get ⟨i, h⟩).report.riskAssessment.severity ++
      " - " ++ (s.history.get ⟨i, h⟩).report.riskAssessment.summary ++
      "\n---\nThe user's original submission included: " ++
      (if strFalsy (s.history.get ⟨i, h⟩).userInput.text then "" else "A text description.") ++
      " " ++ (if (s.history.get ⟨i, h⟩).userInput.image then "An image." else "") ++ " " ++
      (if strFalsy (s.history.get ⟨i, h⟩).userInput.audio then "" else "A voice note.") ++
      "\nBase all your answers on this context and the user's follow-up questions."
  · simp [selectHistoryChatInstruction, String.append_assoc]

/-- A concrete state with one stored entry and a different prior report. -/
def c10State : AppState :=
  { initialState with history := [sampleEntry], activeAlert := some "old alert" }

/-- Claim C10, witness: selecting the only entry of a concrete history
makes its stored report active and clears the chat turns and alert. -/
theorem c10_select_history_witness :
    0 < c10State.history.length ∧
    (handleSelectHistory c10State sampleEntry 0 true).report = some sampleReport ∧
    (handleSelectHistory c10State sampleEntry 0 true).chatHistory = [] ∧
    (handleSelectHistory c10State sampleEntry 0 true).activeAlert = none :=
  ⟨by decide,
   (c10_select_history c10State 0 (by decide)).1,
   (c10_select_history c10State 0 (by decide)).2.1,
   (c10_select_history c10State 0 (by decide)).2.2.1⟩

end OmniDiag
